import Mathlib

/-!
Verification of the olgFeast Order Lifecycle & Real-Time Broadcast Core.

Shallow embedding of the FastAPI backend in `src/fastapi_app`:
* `app/models/order.py` — the `Order` / `OrderItem` records and `OrderStatus` enum;
* `app/services/order_service.py` — order creation, display-id allocation,
  status updates, timing analytics;
* `app/api/v1/orders.py` — the HTTP status-update route and its background
  broadcast task;
* `app/websocket/connection_manager.py` — the channel registry and broadcast;
* `app/websocket/websocket_service.py` — the event fan-out service.

Conventions: timestamps (`datetime.utcnow()`) are modelled as natural numbers
passed in as a `now` argument; database rows are lists inside a `Db` record;
SQLAlchemy commits/rollbacks are modelled by threading explicit committed
states; the random reference-code stream of `_generate_ref_code` is modelled
as a list of candidate strings.
-/

set_option maxHeartbeats 1000000

namespace OlgFeast

/-- `OrderStatus` enum from `app/models/order.py`. -/
inductive OrderStatus where
  | pending
  | preparing
  | ready
  | complete
  deriving DecidableEq, Repr

/-- The `.value` string of each enum member. -/
def OrderStatus.value : OrderStatus → String
  | .pending => "pending"
  | .preparing => "preparing"
  | .ready => "ready"
  | .complete => "complete"

/-- `OrderStatus(s)` construction from a string; `none` when the string is
not a member value. -/
def parseStatus (s : String) : Option OrderStatus :=
  if s = "pending" then some .pending
  else if s = "preparing" then some .preparing
  else if s = "ready" then some .ready
  else if s = "complete" then some .complete
  else none

/-- `valid_statuses = [status.value for status in OrderStatus]` from
`app/api/v1/orders.py`. -/
def validStatuses : List String :=
  [OrderStatus.pending, OrderStatus.preparing, OrderStatus.ready,
   OrderStatus.complete].map OrderStatus.value

/-- The immediate successor in the documented chain
`pending → preparing → ready → complete`. -/
def nextStatus : OrderStatus → Option OrderStatus
  | .pending => some .preparing
  | .preparing => some .ready
  | .ready => some .complete
  | .complete => none

/-- The `orders` table row (`app/models/order.py`): nullable transition
timestamps are `Option Nat`; `date_ordered` and `last_status_change` carry
server defaults and are always present. -/
structure Order where
  id : Nat
  display_id : Nat
  ref_code : String
  user_id : Nat
  customer_name : String
  status : OrderStatus
  date_ordered : Nat
  date_preparing : Option Nat
  date_ready : Option Nat
  date_complete : Option Nat
  last_status_change : Nat
  deriving DecidableEq, Repr

/-- The `order_items` table row. -/
structure OrderItem where
  order_id : Nat
  food_item_id : Nat
  quantity : Nat
  deriving DecidableEq, Repr

/-- A `cart_items` row (food item reference plus quantity). -/
structure CartItem where
  food_item_id : Nat
  quantity : Nat
  deriving DecidableEq, Repr

/-- A `carts` row together with its items. -/
structure Cart where
  id : Nat
  user_id : Nat
  items : List CartItem
  deriving DecidableEq, Repr

/-- The committed database state visible to the order service. -/
structure Db where
  orders : List Order
  order_items : List OrderItem
  carts : List Cart
  deriving DecidableEq, Repr

/-- `OrderService._update_order_timing` (`order_service.py` lines 268-282) and
the identical inline chain in the API route (`orders.py` lines 216-222): only
the three expected forward transitions stamp a timestamp; every other
combination leaves the order untouched. -/
def updateOrderTiming (o : Order) (oldStatus newStatus : OrderStatus) (now : Nat) : Order :=
  if newStatus = .preparing ∧ oldStatus = .pending then
    { o with date_preparing := some now }
  else if newStatus = .ready ∧ oldStatus = .preparing then
    { o with date_ready := some now }
  else if newStatus = .complete ∧ oldStatus = .ready then
    { o with date_complete := some now }
  else o

/-- The status write performed by both update paths: set `order.status` to the
requested value, then run the timing chain with the old and new status. -/
def applyTransition (o : Order) (newStatus : OrderStatus) (now : Nat) : Order :=
  updateOrderTiming { o with status := newStatus } o.status newStatus now

/-- Errors raised by the API route `update_order_status`
(`orders.py` lines 182-249). -/
inductive ApiError where
  | notFound
  | statusRequired
  | invalidStatus
  deriving DecidableEq, Repr

/-- Committing the mutated order row back to the store. -/
def updatedDb (db : Db) (orderId : Nat) (updated : Order) : Db :=
  { db with orders := db.orders.map (fun o => if o.id = orderId then updated else o) }

/-- The API route `update_order_status` (`orders.py` lines 182-249): 404 when
the order does not exist, 400 when no status or an unknown status string is
supplied; otherwise the status is written unconditionally and the timing
chain runs.  Returns the committed database and the refreshed order. -/
def updateOrderStatusApi (db : Db) (orderId : Nat) (requested : Option String)
    (now : Nat) : Except ApiError (Db × Order) :=
  match db.orders.find? (fun o => decide (o.id = orderId)) with
  | none => .error .notFound
  | some order =>
    match requested with
    | none => .error .statusRequired
    | some s =>
      if s ∈ validStatuses then
        match parseStatus s with
        | none => .error .invalidStatus
        | some newStatus =>
          let updated := applyTransition order newStatus now
          .ok (updatedDb db orderId updated, updated)
      else .error .invalidStatus

/-- `OrderService.update_order_status` (`order_service.py` lines 230-266):
no transition validation at all — any enum value is written. -/
def serviceUpdateOrderStatus (db : Db) (orderId : Nat) (newStatus : OrderStatus)
    (now : Nat) : Option (Db × Order) :=
  match db.orders.find? (fun o => decide (o.id = orderId)) with
  | none => none
  | some order =>
    let updated := applyTransition order newStatus now
    some (updatedDb db orderId updated, updated)

/-- The "entered-X" timestamp column that corresponds to a status. -/
def enteredTimestamp : OrderStatus → Order → Option Nat
  | .pending, _ => none
  | .preparing, o => o.date_preparing
  | .ready, o => o.date_ready
  | .complete, o => o.date_complete

/-- `query(Order.display_id).order_by(desc).first()` — the maximum display id
currently stored, `none` when there are no orders
(`order_service.py` line 52). -/
def maxDisplayId (db : Db) : Option Nat :=
  let ds := db.orders.map (fun o => o.display_id)
  if ds.isEmpty then none else some (ds.foldl max 0)

/-- `query(Order).filter(Order.display_id == i).first() is not None`. -/
def displayIdExists (db : Db) (i : Nat) : Bool :=
  db.orders.any (fun o => decide (o.display_id = i))

/-- `OrderService._get_next_display_id` (`order_service.py` lines 45-72):
next in sequence below 999; from 999 on, a linear gap scan over 1..999,
falling back to 1 (deferring to the store's unique constraint) when every
number is taken. -/
def getNextDisplayId (db : Db) : Nat :=
  match maxDisplayId db with
  | none => 1
  | some currentMax =>
    if currentMax ≥ 999 then
      match (List.range' 1 999).find? (fun i => !displayIdExists db i) with
      | some i => i
      | none => 1
    else currentMax + 1

/-- `OrderService._ensure_unique_ref_code` (`order_service.py` lines 34-43):
the random 16-character stream is modelled as a candidate list; the loop
returns the first candidate not already stored, `none` standing for retry
exhaustion of the modelled stream. -/
def ensureUniqueRefCode (db : Db) (candidates : List String) : Option String :=
  candidates.find? (fun c => !(db.orders.any (fun o => decide (o.ref_code = c))))

/-- Store-assigned primary key for a fresh order row. -/
def nextOrderId (db : Db) : Nat :=
  db.orders.foldl (fun m o => max m o.id) 0 + 1

/-- Injection points for a failure (a raised exception) inside
`OrderService.create_order`; the surrounding `try/except` rolls back the
session, which discards only changes made after the latest commit. -/
inductive CreateStep where
  | allocIds
  | addItems
  | clearCart
  | finalCommit
  deriving DecidableEq, Repr

/-- The fresh pending order row built by `create_order` before the first
commit. -/
def newPendingOrder (db : Db) (userId : Nat) (customerName : String)
    (refCode : String) (now : Nat) : Order :=
  { id := nextOrderId db, display_id := getNextDisplayId db, ref_code := refCode,
    user_id := userId, customer_name := customerName, status := .pending,
    date_ordered := now, date_preparing := none, date_ready := none,
    date_complete := none, last_status_change := now }

/-- `OrderService.create_order` (`order_service.py` lines 87-140) together
with `_add_cart_items_to_order` (142-156) and `_clear_user_cart` (158-164).
Mirrors the two-commit structure of the source: the order header is committed
first (where the store checks the `ref_code`/`display_id` unique
constraints); the order lines and the cart delete are committed second.
`failAt` injects an exception before the named step completes; the `except`
branch rolls back to the last committed state and returns `None`. -/
def createOrder (db : Db) (userId : Nat) (customerName : String)
    (refCandidates : List String) (now : Nat) (failAt : Option CreateStep) :
    Db × Option Order :=
  match db.carts.find? (fun c => decide (c.user_id = userId)) with
  | none => (db, none)
  | some cart =>
    if cart.items.isEmpty then (db, none)
    else if failAt = some .allocIds then (db, none)
    else
      match ensureUniqueRefCode db refCandidates with
      | none => (db, none)
      | some refCode =>
        let displayId := getNextDisplayId db
        let orderId := nextOrderId db
        let order : Order := newPendingOrder db userId customerName refCode now
        if db.orders.any (fun o => decide (o.display_id = displayId) || decide (o.ref_code = refCode)) then
          (db, none)
        else
          let db1 : Db := { db with orders := db.orders ++ [order] }
          if failAt = some .addItems then (db1, none)
          else if failAt = some .clearCart then (db1, none)
          else if failAt = some .finalCommit then (db1, none)
          else
            let items := cart.items.map (fun ci =>
              { order_id := orderId, food_item_id := ci.food_item_id,
                quantity := ci.quantity : OrderItem })
            let db2 : Db := { db1 with
              order_items := db1.order_items ++ items,
              carts := db1.carts.map (fun c => if c.id = cart.id then { c with items := [] } else c) }
            (db2, some order)

/-- The record returned by `OrderService._get_timing_analytics`. -/
structure TimingAnalytics where
  avg_total_time : Rat
  deriving DecidableEq, Repr

/-- Python's banker's rounding to the nearest integer. -/
def roundHalfEven (q : Rat) : Int :=
  let f := ⌊q⌋
  let r := q - (f : Rat)
  if r < 1 / 2 then f
  else if r > 1 / 2 then f + 1
  else if f % 2 = 0 then f else f + 1

/-- `round(x, 1)`. -/
def pyRound1 (q : Rat) : Rat := (roundHalfEven (q * 10) : Rat) / 10

/-- `OrderService._get_timing_analytics` (`order_service.py` lines 401-416):
when no completed orders exist the average is reported as `0` before any
division happens; otherwise the mean completion time in minutes, rounded to
one decimal. -/
def getTimingAnalytics (orders : List Order) : TimingAnalytics :=
  let completed := orders.filter (fun o => decide (o.status = .complete))
  if completed.length = 0 then { avg_total_time := 0 }
  else
    let totalTime : Rat := completed.foldl (fun acc o =>
      match o.date_complete with
      | some dc => acc + ((dc : Rat) - (o.date_ordered : Rat)) / 60
      | none => acc) 0
    { avg_total_time := pyRound1 (totalTime / (completed.length : Rat)) }

/-- Metadata stored per connection by `ConnectionManager.connect`
(`connection_manager.py` lines 33-38); `user_id` is the top-level key that
`subscribe_orders` later writes (`websocket_endpoints.py` line 96), read by
`_broadcast_to_user_orders`. Connections themselves are opaque handles,
modelled as naturals. -/
structure ConnInfo where
  channel : String
  connected_at : Nat
  user_info : Option Nat
  user_id : Option Nat
  deriving DecidableEq, Repr

/-- `ConnectionManager` state (`connection_manager.py` lines 15-23):
`active_connections` maps the three fixed channel names to membership sets
(modelled as duplicate-free lists), `connection_info` maps live connections
to their metadata. -/
structure ConnectionManager where
  active_connections : List (String × List Nat)
  connection_info : List (Nat × ConnInfo)
  deriving DecidableEq, Repr

/-- The freshly constructed manager with its three fixed channels. -/
def initialManager : ConnectionManager :=
  { active_connections :=
      [("kitchen_display", []), ("order_updates", []), ("admin_dashboard", [])],
    connection_info := [] }

/-- The membership set of a channel, `none` for an unknown channel name. -/
def getChannelConns (m : ConnectionManager) (channel : String) : Option (List Nat) :=
  (m.active_connections.find? (fun p => decide (p.1 = channel))).map (fun p => p.2)

/-- `ConnectionManager.connect` (`connection_manager.py` lines 25-43): the
connection is added to the channel's set only when the channel name is a key
of `active_connections`; its metadata entry is written unconditionally. -/
def connect (m : ConnectionManager) (ws : Nat) (channel : String)
    (userInfo : Option Nat) (now : Nat) : ConnectionManager :=
  let ac :=
    if (m.active_connections.find? (fun p => decide (p.1 = channel))).isSome then
      m.active_connections.map (fun p =>
        if p.1 = channel then (p.1, if ws ∈ p.2 then p.2 else p.2 ++ [ws]) else p)
    else m.active_connections
  { active_connections := ac,
    connection_info := m.connection_info.filter (fun q => decide (q.1 ≠ ws)) ++
      [(ws, { channel := channel, connected_at := now, user_info := userInfo, user_id := none })] }

/-- `ConnectionManager.disconnect` (`connection_manager.py` lines 45-55):
discard the connection from every channel set and drop its metadata;
idempotent. -/
def disconnect (m : ConnectionManager) (ws : Nat) : ConnectionManager :=
  { active_connections := m.active_connections.map (fun p => (p.1, p.2.filter (fun w => decide (w ≠ ws)))),
    connection_info := m.connection_info.filter (fun q => decide (q.1 ≠ ws)) }

/-- `ConnectionManager.broadcast_to_channel` (`connection_manager.py` lines
80-102): iterate over a snapshot copy of the membership set; a connection
whose state is not `CONNECTED` (`alive`) or whose send raises (`sendOk`) is
collected into `connections_to_remove` and delivery continues; the collected
connections are disconnected only after the loop.  Returns the new manager
state and the list of connections that received the message. -/
def broadcastToChannel (m : ConnectionManager) (alive sendOk : Nat → Bool)
    (channel : String) : ConnectionManager × List Nat :=
  match getChannelConns m channel with
  | none => (m, [])
  | some conns =>
    let pass := conns.foldl (fun (acc : List Nat × List Nat) ws =>
      if !alive ws then (acc.1, acc.2 ++ [ws])
      else if sendOk ws then (acc.1 ++ [ws], acc.2)
      else (acc.1, acc.2 ++ [ws])) ([], [])
    (pass.2.foldl (fun mm ws => disconnect mm ws) m, pass.1)

/-- `ConnectionManager.get_connection_count` (`connection_manager.py` lines
143-147): a channel's set size, or the sum of all channel set sizes. -/
def getConnectionCount (m : ConnectionManager) (channel : Option String) : Nat :=
  match channel with
  | some ch => ((getChannelConns m ch).map List.length).getD 0
  | none => (m.active_connections.map (fun p => p.2.length)).sum

/-- The `total_connections` field of `get_connection_info`
(`connection_manager.py` lines 149-161). -/
def connectionInfoTotal (m : ConnectionManager) : Nat :=
  getConnectionCount m none

/-- Message kinds appearing in the broadcast payloads. -/
inductive MsgType where
  | order_status_change
  | new_order
  | kitchen_update
  | dashboard_update
  deriving DecidableEq, Repr

/-- One delivery action: a channel broadcast or a direct send to one
connection. -/
inductive WsAction where
  | chan (channel : String) (msg : MsgType)
  | direct (ws : Nat) (msg : MsgType)
  deriving DecidableEq, Repr

/-- The connections targeted by `WebSocketService._broadcast_to_user_orders`
(`websocket_service.py` lines 151-167): metadata entries on the
`order_updates` channel whose top-level `user_id` equals the order owner. -/
def userOrderConns (m : ConnectionManager) (userId : Nat) : List Nat :=
  (m.connection_info.filter (fun q =>
    decide (q.2.channel = "order_updates") && decide (q.2.user_id = some userId))).map (fun q => q.1)

/-- The publish sequence of `WebSocketService.broadcast_order_status_change`
(`websocket_service.py` lines 25-67): kitchen display, admin dashboard, the
owner's subscribed `order_updates` connections, then
`broadcast_kitchen_update`. -/
def wsStatusChangeTrace (m : ConnectionManager) (userId : Nat) : List WsAction :=
  [WsAction.chan "kitchen_display" .order_status_change,
   WsAction.chan "admin_dashboard" .order_status_change] ++
  (userOrderConns m userId).map (fun ws => WsAction.direct ws .order_status_change) ++
  [WsAction.chan "kitchen_display" .kitchen_update]

/-- The publish sequence of `WebSocketService.broadcast_new_order`
(`websocket_service.py` lines 69-104). -/
def wsNewOrderTrace : List WsAction :=
  [WsAction.chan "kitchen_display" .new_order,
   WsAction.chan "admin_dashboard" .new_order,
   WsAction.chan "kitchen_display" .kitchen_update]

/-- The publish sequence of `broadcast_status_change_background`
(`orders.py` lines 47-72), the task scheduled by the API status route. -/
def apiStatusChangeTrace : List WsAction :=
  [WsAction.chan "kitchen_display" .order_status_change,
   WsAction.chan "admin_dashboard" .order_status_change]

/-- The publish sequence of `broadcast_new_order_background`
(`orders.py` lines 19-44). -/
def apiNewOrderTrace : List WsAction :=
  [WsAction.chan "kitchen_display" .new_order,
   WsAction.chan "admin_dashboard" .new_order]

/-- An order state reachable from checkout through forward-adjacent (legal)
status updates only, with a nondecreasing clock; the attached natural is the
time of the latest operation. -/
inductive LegalReach : Order → Nat → Prop where
  | created (id displayId userId : Nat) (refCode name : String) (t : Nat) :
      LegalReach
        { id := id, display_id := displayId, ref_code := refCode,
          user_id := userId, customer_name := name, status := .pending,
          date_ordered := t, date_preparing := none, date_ready := none,
          date_complete := none, last_status_change := t } t
  | step (o : Order) (t now : Nat) (newStatus : OrderStatus) :
      LegalReach o t → t ≤ now → nextStatus o.status = some newStatus →
      LegalReach (applyTransition o newStatus now) now

/-- The monotonicity check of the spec: `entered-preparing` (when set) is at
least the creation time, and `entered-ready` (when set) presupposes
`entered-preparing` and is at least it. -/
def timingMonotoneOk (o : Order) : Bool :=
  (match o.date_preparing with
   | none => true
   | some p => decide (o.date_ordered ≤ p)) &&
  (match o.date_preparing, o.date_ready with
   | some p, some r => decide (p ≤ r)
   | none, some _ => false
   | _, _ => true)

/-! ### Concrete fixtures -/

/-- A pending order as stored right after checkout (creation time 3). -/
def o1 : Order :=
  { id := 1, display_id := 1, ref_code := "abcd1234abcd1234", user_id := 1,
    customer_name := "Alice", status := .pending, date_ordered := 3,
    date_preparing := none, date_ready := none, date_complete := none,
    last_status_change := 3 }

/-- A one-order store holding `o1`. -/
def c1db : Db := { orders := [o1], order_items := [], carts := [] }

/-! ### Helper lemmas about the timing chain -/

/-- The timing chain never changes the status field. -/
theorem updateOrderTiming_status (o : Order) (a b : OrderStatus) (n : Nat) :
    (updateOrderTiming o a b n).status = o.status := by
  unfold updateOrderTiming
  split
  · rfl
  · split
    · rfl
    · split <;> rfl

/-- The timing chain never changes `date_ordered`. -/
theorem updateOrderTiming_date_ordered (o : Order) (a b : OrderStatus) (n : Nat) :
    (updateOrderTiming o a b n).date_ordered = o.date_ordered := by
  unfold updateOrderTiming
  split
  · rfl
  · split
    · rfl
    · split <;> rfl

/-- The timing chain never changes `last_status_change`. -/
theorem updateOrderTiming_last_status_change (o : Order) (a b : OrderStatus) (n : Nat) :
    (updateOrderTiming o a b n).last_status_change = o.last_status_change := by
  unfold updateOrderTiming
  split
  · rfl
  · split
    · rfl
    · split <;> rfl

/-- When the new status is not the immediate successor of the old one, the
timing chain is the identity. -/
theorem updateOrderTiming_eq_of_not_next (o : Order) (a b : OrderStatus) (n : Nat)
    (h : nextStatus a ≠ some b) : updateOrderTiming o a b n = o := by
  cases a <;> cases b <;> simp [nextStatus] at h ⊢ <;>
    simp [updateOrderTiming]

/-- A string that parses to a status is one of the four valid status values. -/
theorem mem_validStatuses_of_parse (s : String) (st : OrderStatus)
    (h : parseStatus s = some st) : s ∈ validStatuses := by
  unfold parseStatus at h
  split at h
  · rename_i hs
    subst hs
    decide
  · split at h
    · rename_i hs
      subst hs
      decide
    · split at h
      · rename_i hs
        subst hs
        decide
      · split at h
        · rename_i hs
          subst hs
          decide
        · exact absurd h (by simp)

/-- A status written by an accepted transition sticks. -/
theorem applyTransition_status (o : Order) (s : OrderStatus) (n : Nat) :
    (applyTransition o s n).status = s := by
  unfold applyTransition
  rw [updateOrderTiming_status]

/-- An adjacent forward transition stamps the matching "entered-X" column
with the current time. -/
theorem applyTransition_stamps_of_next (o : Order) (s : OrderStatus) (n : Nat)
    (h : nextStatus o.status = some s) :
    enteredTimestamp s (applyTransition o s n) = some n := by
  unfold applyTransition
  rcases ho : o.status with _ | _ | _ | _ <;> rw [ho] at h <;>
    simp [nextStatus] at h <;> subst h <;>
    simp [updateOrderTiming, enteredTimestamp]

/-! ### C1 -/

/-- C1 counterexample: requesting `complete` on the pending order `o1` is
*accepted* by the API status route — the call returns `ok`, the status
becomes `complete` and no timestamp is stamped — rather than being rejected
with an `IllegalTransition` error. -/
theorem pending_to_complete_accepted_not_rejected :
    updateOrderStatusApi c1db 1 (some "complete") 7 =
      .ok ({ c1db with orders := [{ o1 with status := .complete }] },
           { o1 with status := .complete }) := by
  rfl

/-- C1 (amended): for every stored order and every requested status among the
four known values, the API status-update accepts the request — there is no
`IllegalTransition` rejection — writing the requested status; when the
request is not the immediate successor of the current status, all
timestamps are left unchanged.  The service-layer
`OrderService.update_order_status` likewise performs no transition
validation. -/
theorem api_status_update_accepts_any_known_status
    (db : Db) (orderId : Nat) (s : String) (now : Nat) (order : Order)
    (hfind : db.orders.find? (fun o => decide (o.id = orderId)) = some order)
    (hs : s ∈ validStatuses) :
    ∃ newStatus db' o', parseStatus s = some newStatus ∧
      updateOrderStatusApi db orderId (some s) now = .ok (db', o') ∧
      serviceUpdateOrderStatus db orderId newStatus now = some (db', o') ∧
      o'.status = newStatus ∧
      (nextStatus order.status ≠ some newStatus →
        o'.date_preparing = order.date_preparing ∧
        o'.date_ready = order.date_ready ∧
        o'.date_complete = order.date_complete ∧
        o'.last_status_change = order.last_status_change) := by
  have hparse : ∃ st, parseStatus s = some st := by
    unfold validStatuses OrderStatus.value at hs
    simp at hs
    rcases hs with rfl | rfl | rfl | rfl
    · exact ⟨.pending, by decide⟩
    · exact ⟨.preparing, by decide⟩
    · exact ⟨.ready, by decide⟩
    · exact ⟨.complete, by decide⟩
  obtain ⟨newStatus, hp⟩ := hparse
  refine ⟨newStatus, updatedDb db orderId (applyTransition order newStatus now),
    applyTransition order newStatus now, hp, ?_, ?_, ?_, ?_⟩
  · unfold updateOrderStatusApi
    simp only [hfind, if_pos hs, hp]
  · unfold serviceUpdateOrderStatus
    simp only [hfind]
  · exact applyTransition_status order newStatus now
  · intro hnot
    unfold applyTransition
    rw [updateOrderTiming_eq_of_not_next _ _ _ _ hnot]
    exact ⟨rfl, rfl, rfl, rfl⟩

/-- C1 amended-theorem witness at the `o1` store with requested status
`"ready"` (not the successor of `pending`). -/
theorem api_status_update_accepts_any_known_status_witness :
    (c1db.orders.find? (fun o => decide (o.id = 1)) = some o1) ∧
    ("ready" ∈ validStatuses) ∧
    (∃ newStatus db' o', parseStatus "ready" = some newStatus ∧
      updateOrderStatusApi c1db 1 (some "ready") 7 = .ok (db', o') ∧
      serviceUpdateOrderStatus c1db 1 newStatus 7 = some (db', o') ∧
      o'.status = newStatus ∧
      (nextStatus o1.status ≠ some newStatus →
        o'.date_preparing = o1.date_preparing ∧
        o'.date_ready = o1.date_ready ∧
        o'.date_complete = o1.date_complete ∧
        o'.last_status_change = o1.last_status_change)) :=
  ⟨by decide, by decide,
   api_status_update_accepts_any_known_status c1db 1 "ready" 7 o1
     (by decide) (by decide)⟩

/-! ### C4 -/

/-- C4 counterexample: the accepted transition `pending → preparing` on `o1`
at time 7 stamps `date_preparing` but leaves `last_status_change` at its
creation-time value 3 — the operation never updates the last-status-change
column. -/
theorem accepted_transition_does_not_touch_last_status_change :
    (updateOrderStatusApi c1db 1 (some "preparing") 7).toOption.map
        (fun r => (r.2.date_preparing, r.2.last_status_change)) =
      some (some 7, 3) ∧ (3 : Nat) ≠ 7 := by
  refine ⟨by rfl, by decide⟩

/-- C4 (amended): for every accepted forward-adjacent status transition the
operation stamps the corresponding "entered-X" timestamp with the current
time; the order's `last_status_change` column, however, is never updated by
the operation (it keeps the value written at creation). -/
theorem adjacent_transition_stamps_entered_timestamp
    (db : Db) (orderId : Nat) (s : String) (now : Nat) (order : Order)
    (newStatus : OrderStatus)
    (hfind : db.orders.find? (fun o => decide (o.id = orderId)) = some order)
    (hp : parseStatus s = some newStatus)
    (hadj : nextStatus order.status = some newStatus) :
    ∃ db' o', updateOrderStatusApi db orderId (some s) now = .ok (db', o') ∧
      enteredTimestamp newStatus o' = some now ∧
      o'.last_status_change = order.last_status_change := by
  have hs := mem_validStatuses_of_parse s newStatus hp
  refine ⟨updatedDb db orderId (applyTransition order newStatus now),
    applyTransition order newStatus now, ?_, ?_, ?_⟩
  · unfold updateOrderStatusApi
    simp only [hfind, if_pos hs, hp]
  · exact applyTransition_stamps_of_next order newStatus now hadj
  · unfold applyTransition
    rw [updateOrderTiming_last_status_change]

/-- C4 amended-theorem witness: `pending → preparing` on `o1` at time 7. -/
theorem adjacent_transition_stamps_entered_timestamp_witness :
    (c1db.orders.find? (fun o => decide (o.id = 1)) = some o1) ∧
    (parseStatus "preparing" = some OrderStatus.preparing) ∧
    (nextStatus o1.status = some OrderStatus.preparing) ∧
    (∃ db' o', updateOrderStatusApi c1db 1 (some "preparing") 7 = .ok (db', o') ∧
      enteredTimestamp OrderStatus.preparing o' = some 7 ∧
      o'.last_status_change = o1.last_status_change) :=
  ⟨by decide, by decide, by decide,
   adjacent_transition_stamps_entered_timestamp c1db 1 "preparing" 7 o1
     OrderStatus.preparing (by decide) (by decide) (by decide)⟩

/-! ### C9 -/

/-- C9: with zero completed orders the timing analytics short-circuit to an
`avg_total_time` of `0`; the division by the completed-order count is only
reached when that count is nonzero. -/
theorem timing_analytics_zero_completed (orders : List Order)
    (h : (orders.filter (fun o => decide (o.status = .complete))).length = 0) :
    getTimingAnalytics orders = { avg_total_time := 0 } := by
  unfold getTimingAnalytics
  simp only [h, if_pos]

/-- C9 witness: a store holding one pending order reports an average total
time of `0`. -/
theorem timing_analytics_zero_completed_witness :
    (([o1].filter (fun o => decide (o.status = .complete))).length = 0) ∧
    getTimingAnalytics [o1] = { avg_total_time := 0 } :=
  ⟨by decide, timing_analytics_zero_completed [o1] (by decide)⟩

/-! ### C8 -/

/-- Inductive invariant for orders driven only through the legal chain:
timestamp bounds plus consistency of the populated stages with the status. -/
def legalInv (o : Order) (t : Nat) : Prop :=
  o.date_ordered ≤ t ∧
  (∀ p, o.date_preparing = some p → o.date_ordered ≤ p ∧ p ≤ t) ∧
  (∀ r, o.date_ready = some r → (∃ p, o.date_preparing = some p ∧ p ≤ r) ∧ r ≤ t) ∧
  (∀ c, o.date_complete = some c → (∃ r, o.date_ready = some r ∧ r ≤ c) ∧ c ≤ t) ∧
  (o.status = .pending → o.date_preparing = none ∧ o.date_ready = none ∧ o.date_complete = none) ∧
  (o.status = .preparing → o.date_ready = none ∧ o.date_complete = none) ∧
  (o.status = .ready → o.date_complete = none) ∧
  (o.status = .preparing ∨ o.status = .ready ∨ o.status = .complete → ∃ p, o.date_preparing = some p) ∧
  (o.status = .ready ∨ o.status = .complete → ∃ r, o.date_ready = some r)

/-- Every legally reached order state satisfies the invariant. -/
theorem legalReach_legalInv (o : Order) (t : Nat) (h : LegalReach o t) :
    legalInv o t := by
  induction h with
  | created id displayId userId refCode name t =>
    refine ⟨le_refl _, ?_, ?_, ?_, ?_, ?_, ?_, ?_, ?_⟩ <;> simp
  | step o t now newStatus _ hle hnext ih =>
    obtain ⟨h1, h2, h3, h4, h5, h6, h7, h8, h9⟩ := ih
    rcases ho : o.status with _ | _ | _ | _ <;> rw [ho] at hnext
    · -- pending → preparing
      simp only [nextStatus, Option.some.injEq] at hnext
      subst hnext
      obtain ⟨hpn, hrn, hcn⟩ := h5 ho
      have hstep : applyTransition o .preparing now =
          { o with status := .preparing, date_preparing := some now } := by
        unfold applyTransition updateOrderTiming
        rw [ho]
        simp
      rw [hstep]
      unfold legalInv
      dsimp only
      refine ⟨le_trans h1 hle, ?_, ?_, ?_, ?_, ?_, ?_, ?_, ?_⟩
      · intro p hp
        obtain rfl := Option.some.inj hp
        exact ⟨le_trans h1 hle, le_refl _⟩
      · intro r hr
        simp [hrn] at hr
      · intro c hc
        simp [hcn] at hc
      · exact fun hq => absurd hq (by decide)
      · exact fun _ => ⟨hrn, hcn⟩
      · exact fun hq => absurd hq (by decide)
      · exact fun _ => ⟨now, rfl⟩
      · rintro (hq | hq) <;> exact absurd hq (by decide)
    · -- preparing → ready
      simp only [nextStatus, Option.some.injEq] at hnext
      subst hnext
      obtain ⟨hrn, hcn⟩ := h6 ho
      obtain ⟨p, hp⟩ := h8 (Or.inl ho)
      obtain ⟨hop, hpt⟩ := h2 p hp
      have hstep : applyTransition o .ready now =
          { o with status := .ready, date_ready := some now } := by
        unfold applyTransition updateOrderTiming
        rw [ho]
        simp
      rw [hstep]
      unfold legalInv
      dsimp only
      refine ⟨le_trans h1 hle, ?_, ?_, ?_, ?_, ?_, ?_, ?_, ?_⟩
      · intro q hq
        obtain ⟨hoq, hqt⟩ := h2 q hq
        exact ⟨hoq, le_trans hqt hle⟩
      · intro r hr
        obtain rfl := Option.some.inj hr
        exact ⟨⟨p, hp, le_trans hpt hle⟩, le_refl _⟩
      · intro c hc
        simp [hcn] at hc
      · exact fun hq => absurd hq (by decide)
      · exact fun hq => absurd hq (by decide)
      · exact fun _ => hcn
      · exact fun _ => ⟨p, hp⟩
      · exact fun _ => ⟨now, rfl⟩
    · -- ready → complete
      simp only [nextStatus, Option.some.injEq] at hnext
      subst hnext
      have hcn := h7 ho
      obtain ⟨p, hp⟩ := h8 (Or.inr (Or.inl ho))
      obtain ⟨r, hr⟩ := h9 (Or.inl ho)
      obtain ⟨⟨p', hp', hpr⟩, hrt⟩ := h3 r hr
      have hstep : applyTransition o .complete now =
          { o with status := .complete, date_complete := some now } := by
        unfold applyTransition updateOrderTiming
        rw [ho]
        simp
      rw [hstep]
      unfold legalInv
      dsimp only
      refine ⟨le_trans h1 hle, ?_, ?_, ?_, ?_, ?_, ?_, ?_, ?_⟩
      · intro q hq
        obtain ⟨hoq, hqt⟩ := h2 q hq
        exact ⟨hoq, le_trans hqt hle⟩
      · intro r' hr'
        obtain ⟨hex, hr't⟩ := h3 r' hr'
        exact ⟨hex, le_trans hr't hle⟩
      · intro c hc
        obtain rfl := Option.some.inj hc
        exact ⟨⟨r, hr, le_trans hrt hle⟩, le_refl _⟩
      · exact fun hq => absurd hq (by decide)
      · exact fun hq => absurd hq (by decide)
      · exact fun hq => absurd hq (by decide)
      · exact fun _ => ⟨p, hp⟩
      · exact fun _ => ⟨r, hr⟩
    · -- complete has no successor
      simp [nextStatus] at hnext

/-- C8 counterexample helpers: a pending order created at time 0 and the
store holding it. -/
def o8 : Order :=
  { id := 1, display_id := 1, ref_code := "zzzz1111zzzz1111", user_id := 1,
    customer_name := "Bob", status := .pending, date_ordered := 0,
    date_preparing := none, date_ready := none, date_complete := none,
    last_status_change := 0 }

/-- The store after one checkout, before any status update. -/
def c8Db0 : Db := { orders := [o8], order_items := [], carts := [] }

/-- One API status-update call, keeping the store unchanged on error. -/
def c8Step (db : Db) (s : String) (now : Nat) : Db :=
  ((updateOrderStatusApi db 1 (some s) now).toOption.map Prod.fst).getD db

/-- The store after the accepted sequence
`preparing@1, ready@2, pending@3, preparing@4` — every one of these requests
is a known status and is therefore accepted by the code. -/
def c8DbFinal : Db :=
  c8Step (c8Step (c8Step (c8Step c8Db0 "preparing" 1) "ready" 2) "pending" 3) "preparing" 4

/-- C8 counterexample: a sequence of create and status-update operations
(all accepted by the code) yields an order with `entered-ready = 2` strictly
below `entered-preparing = 4`, violating the claimed monotonicity
invariant. -/
theorem out_of_order_updates_break_timestamp_monotonicity :
    c8DbFinal.orders.map (fun o => (o.date_preparing, o.date_ready, timingMonotoneOk o)) =
      [(some 4, some 2, false)] := by
  decide

/-- C8 (amended): for every order reachable from checkout through
forward-adjacent (immediate-successor) status updates under a nondecreasing
clock, `entered-preparing` (when set) is at least the creation timestamp and
`entered-ready` (when set) presupposes `entered-preparing` and is at least
it; the code additionally accepts out-of-sequence status writes, which can
break this property. -/
theorem legalReach_timing_monotone (o : Order) (t : Nat) (h : LegalReach o t) :
    timingMonotoneOk o = true := by
  obtain ⟨_, h2, h3, _, _, _, _, _, _⟩ := legalReach_legalInv o t h
  unfold timingMonotoneOk
  rcases hp : o.date_preparing with _ | p <;> rcases hr : o.date_ready with _ | r <;> simp
  · obtain ⟨⟨p', hp', _⟩, _⟩ := h3 r hr
    rw [hp] at hp'
    exact absurd hp' (by simp)
  · exact (h2 p hp).1
  · obtain ⟨(h2p : o.date_ordered ≤ p), _⟩ := h2 p hp
    obtain ⟨⟨p', hp', hpr⟩, _⟩ := h3 r hr
    rw [hp] at hp'
    obtain rfl : p = p' := by injection hp'
    exact ⟨h2p, hpr⟩

/-- The legally driven run `created@0 → preparing@1 → ready@2`. -/
def c8LegalFinal : Order :=
  applyTransition (applyTransition o8 .preparing 1) .ready 2

/-- C8 amended-theorem witness: the legal run satisfies the monotonicity
check. -/
theorem legalReach_timing_monotone_witness :
    timingMonotoneOk c8LegalFinal = true :=
  legalReach_timing_monotone c8LegalFinal 2
    (LegalReach.step _ 1 2 .ready
      (LegalReach.step _ 0 1 .preparing
        (LegalReach.created 1 1 1 "zzzz1111zzzz1111" "Bob" 0)
        (by decide) (by decide))
      (by decide) (by decide))

/-! ### C2 and C5 -/

/-- A cart with one line, used for the checkout fixtures. -/
def c2Cart : Cart := { id := 1, user_id := 1, items := [{ food_item_id := 10, quantity := 2 }] }

/-- An empty store holding only `c2Cart`. -/
def c2Db : Db := { orders := [], order_items := [], carts := [c2Cart] }

/-- C2 counterexample: when order-line insertion fails (after the order
header was committed by the first `db.commit()`), the rolled-back attempt
still leaves the bare order record in the store — the failed
`create_order` is not all-or-nothing. -/
theorem create_order_failure_leaves_order_header :
    (createOrder c2Db 1 "Carol" ["refref"] 5 (some .addItems)).2 = none ∧
    (createOrder c2Db 1 "Carol" ["refref"] 5 (some .addItems)).1.orders =
      [{ id := 1, display_id := 1, ref_code := "refref", user_id := 1,
         customer_name := "Carol", status := .pending, date_ordered := 5,
         date_preparing := none, date_ready := none, date_complete := none,
         last_status_change := 5 }] ∧
    (createOrder c2Db 1 "Carol" ["refref"] 5 (some .addItems)).1.carts = [c2Cart] := by
  decide

/-- C2 (amended): a failure during identifier allocation (before the first
commit) leaves the store completely unchanged; a failure at order-line
insertion, cart clearing or the final commit returns no order and leaves the
order lines and the cart untouched, but may leave the already-committed bare
pending order header in the store. -/
theorem create_order_failure_effects
    (db : Db) (userId : Nat) (customerName : String) (refCandidates : List String)
    (now : Nat) (failAt : CreateStep)
    (hf : failAt = .addItems ∨ failAt = .clearCart ∨ failAt = .finalCommit) :
    createOrder db userId customerName refCandidates now (some .allocIds) = (db, none) ∧
    (createOrder db userId customerName refCandidates now (some failAt)).2 = none ∧
    (createOrder db userId customerName refCandidates now (some failAt)).1.order_items =
      db.order_items ∧
    (createOrder db userId customerName refCandidates now (some failAt)).1.carts = db.carts ∧
    ((createOrder db userId customerName refCandidates now (some failAt)).1.orders = db.orders ∨
      ∃ ord, ord.status = .pending ∧
        (createOrder db userId customerName refCandidates now (some failAt)).1.orders =
          db.orders ++ [ord]) := by
  have halloc : createOrder db userId customerName refCandidates now (some .allocIds) = (db, none) := by
    unfold createOrder
    cases hc : db.carts.find? (fun c => decide (c.user_id = userId)) with
    | none => rfl
    | some cart =>
      cases he : cart.items.isEmpty <;> simp [he]
  have hmain : ∀ g : CreateStep, g = .addItems ∨ g = .clearCart ∨ g = .finalCommit →
      (createOrder db userId customerName refCandidates now (some g)).2 = none ∧
      (createOrder db userId customerName refCandidates now (some g)).1.order_items =
        db.order_items ∧
      (createOrder db userId customerName refCandidates now (some g)).1.carts = db.carts ∧
      ((createOrder db userId customerName refCandidates now (some g)).1.orders = db.orders ∨
        ∃ ord, ord.status = .pending ∧
          (createOrder db userId customerName refCandidates now (some g)).1.orders =
            db.orders ++ [ord]) := by
    intro g hg
    unfold createOrder
    cases hc : db.carts.find? (fun c => decide (c.user_id = userId)) with
    | none => exact ⟨rfl, rfl, rfl, Or.inl rfl⟩
    | some cart =>
      cases he : cart.items.isEmpty with
      | true => simp [he]
      | false =>
        have hgn : (some g = some CreateStep.allocIds) = False := by
          rcases hg with rfl | rfl | rfl <;> simp
        simp only [he, Bool.false_eq_true, if_false, hgn]
        cases hr : ensureUniqueRefCode db refCandidates with
        | none => simp
        | some refCode =>
          by_cases hdup : (db.orders.any fun o =>
              decide (o.display_id = getNextDisplayId db) || decide (o.ref_code = refCode)) = true
          · simp [hdup]
          · simp only [hdup, if_false]
            rcases hg with rfl | rfl | rfl <;>
              simp <;>
              rfl
  exact ⟨halloc, (hmain failAt hf).1, (hmain failAt hf).2.1, (hmain failAt hf).2.2.1,
    (hmain failAt hf).2.2.2⟩

/-- C2 amended-theorem witness at the one-cart store with a failure injected
at order-line insertion. -/
theorem create_order_failure_effects_witness :
    (CreateStep.addItems = CreateStep.addItems ∨ CreateStep.addItems = CreateStep.clearCart ∨
      CreateStep.addItems = CreateStep.finalCommit) ∧
    (createOrder c2Db 1 "Carol" ["refref"] 5 (some .allocIds) = (c2Db, none) ∧
     (createOrder c2Db 1 "Carol" ["refref"] 5 (some .addItems)).2 = none ∧
     (createOrder c2Db 1 "Carol" ["refref"] 5 (some .addItems)).1.order_items = c2Db.order_items ∧
     (createOrder c2Db 1 "Carol" ["refref"] 5 (some .addItems)).1.carts = c2Db.carts ∧
     ((createOrder c2Db 1 "Carol" ["refref"] 5 (some .addItems)).1.orders = c2Db.orders ∨
       ∃ ord, ord.status = .pending ∧
         (createOrder c2Db 1 "Carol" ["refref"] 5 (some .addItems)).1.orders =
           c2Db.orders ++ [ord])) :=
  ⟨Or.inl rfl,
   create_order_failure_effects c2Db 1 "Carol" ["refref"] 5 .addItems (Or.inl rfl)⟩

/-- The store state a fully successful checkout is expected to leave behind:
the new order appended, one order line per cart line preserving the menu-item
reference and the quantity, and the source cart emptied. -/
def createOrderResultDb (db : Db) (cart : Cart) (ord : Order) : Db :=
  { orders := db.orders ++ [ord],
    order_items := db.order_items ++ cart.items.map (fun ci =>
      { order_id := ord.id, food_item_id := ci.food_item_id,
        quantity := ci.quantity : OrderItem }),
    carts := db.carts.map (fun c => if c.id = cart.id then { c with items := [] } else c) }

/-- C5: a fully successful `create_order` appends exactly one order line per
cart line, each keeping that cart line's menu-item reference and quantity,
and empties the source cart. -/
theorem create_order_success
    (db : Db) (userId : Nat) (customerName : String) (refCandidates : List String)
    (now : Nat) (cart : Cart) (refCode : String)
    (hc : db.carts.find? (fun c => decide (c.user_id = userId)) = some cart)
    (hne : cart.items.isEmpty = false)
    (hr : ensureUniqueRefCode db refCandidates = some refCode)
    (hdup : db.orders.any (fun o =>
      decide (o.display_id = getNextDisplayId db) || decide (o.ref_code = refCode)) = false) :
    ∃ ord, ord.status = .pending ∧
      createOrder db userId customerName refCandidates now none =
        (createOrderResultDb db cart ord, some ord) := by
  refine ⟨newPendingOrder db userId customerName refCode now, rfl, ?_⟩
  unfold createOrder createOrderResultDb newPendingOrder
  simp only [hc, hne, hr, hdup]
  simp

/-- C5 witness fixtures: the three-line cart of quantities `[2, 1, 4]`. -/
def c5Cart : Cart :=
  { id := 2, user_id := 7, items :=
      [{ food_item_id := 11, quantity := 2 },
       { food_item_id := 12, quantity := 1 },
       { food_item_id := 13, quantity := 4 }] }

/-- An empty store holding only `c5Cart`. -/
def c5Db : Db := { orders := [], order_items := [], carts := [c5Cart] }

/-- C5 witness: checking out the `[2, 1, 4]` cart yields exactly three order
lines with those quantities and the cart map empties the source cart. -/
theorem create_order_success_witness :
    (c5Db.carts.find? (fun c => decide (c.user_id = 7)) = some c5Cart) ∧
    (c5Cart.items.isEmpty = false) ∧
    (ensureUniqueRefCode c5Db ["qqqq"] = some "qqqq") ∧
    (c5Db.orders.any (fun o =>
      decide (o.display_id = getNextDisplayId c5Db) || decide (o.ref_code = "qqqq")) = false) ∧
    (∃ ord, ord.status = .pending ∧
      createOrder c5Db 7 "Dave" ["qqqq"] 9 none =
        (createOrderResultDb c5Db c5Cart ord, some ord)) :=
  ⟨by decide, by decide, by decide, by decide,
   create_order_success c5Db 7 "Dave" ["qqqq"] 9 c5Cart "qqqq"
     (by decide) (by decide) (by decide) (by decide)⟩

/-! ### C3 -/

/-- Order number `i` of the display-number scenario: display number `i`,
completed for `i ≤ 500`, still pending above. -/
def c3Order (i : Nat) : Order :=
  { id := i, display_id := i, ref_code := "", user_id := 0, customer_name := "",
    status := if i ≤ 500 then .complete else .pending,
    date_ordered := 0, date_preparing := none, date_ready := none,
    date_complete := if i ≤ 500 then some 0 else none,
    last_status_change := 0 }

/-- The cart used for the allocation attempts. -/
def c3Cart : Cart := { id := 9, user_id := 42, items := [{ food_item_id := 1, quantity := 1 }] }

/-- The store after 999 checkouts (display numbers 1..999 all assigned) and
completion of the orders holding 1..500; no row was deleted. -/
def db999 : Db :=
  { orders := (List.range' 1 999).map c3Order, order_items := [], carts := [c3Cart] }

/-- The store holding only the order rows with display numbers 501..999 —
the rows that held 1..500 were removed. -/
def db499 : Db :=
  { orders := (List.range' 501 499).map c3Order, order_items := [], carts := [c3Cart] }

/-- Upper bound of a `max` fold. -/
theorem foldl_max_le_of (l : List Nat) (a m : Nat) (ha : a ≤ m)
    (h : ∀ x ∈ l, x ≤ m) : l.foldl max a ≤ m := by
  induction l generalizing a with
  | nil => exact ha
  | cons x xs ih =>
    exact ih (max a x) (max_le ha (h x (by simp))) (fun y hy => h y (by simp [hy]))

/-- The initial value is below a `max` fold. -/
theorem init_le_foldl_max (l : List Nat) (a : Nat) : a ≤ l.foldl max a := by
  induction l generalizing a with
  | nil => exact le_refl a
  | cons x xs ih => exact le_trans (le_max_left a x) (ih (max a x))

/-- Every member is below a `max` fold. -/
theorem mem_le_foldl_max (l : List Nat) (a x : Nat) (hx : x ∈ l) :
    x ≤ l.foldl max a := by
  induction l generalizing a with
  | nil => cases hx
  | cons y ys ih =>
    rcases List.mem_cons.1 hx with rfl | h
    · exact le_trans (le_max_right a x) (init_le_foldl_max ys (max a x))
    · exact ih (max a y) h

/-- The display-id projection of the 999-order store is `[1..999]`. -/
theorem db999_displays : db999.orders.map (fun o => o.display_id) = List.range' 1 999 := by
  show ((List.range' 1 999).map c3Order).map (fun o => o.display_id) = _
  rw [List.map_map]
  have hc : ((fun o => o.display_id) ∘ c3Order) = fun i => i := by
    funext i
    rfl
  rw [hc, List.map_id']

/-- The display-id projection of the freed store is `[501..999]`. -/
theorem db499_displays : db499.orders.map (fun o => o.display_id) = List.range' 501 499 := by
  show ((List.range' 501 499).map c3Order).map (fun o => o.display_id) = _
  rw [List.map_map]
  have hc : ((fun o => o.display_id) ∘ c3Order) = fun i => i := by
    funext i
    rfl
  rw [hc, List.map_id']

/-- A `max` fold over `[s+1..s+n]` starting at 0 yields the top element. -/
theorem foldl_max_range' (s n : Nat) (hn : 0 < n) :
    (List.range' (s + 1) n).foldl max 0 = s + n := by
  have h1 : (List.range' (s + 1) n).foldl max 0 ≤ s + n :=
    foldl_max_le_of _ 0 (s + n) (Nat.zero_le _)
      (fun x hx => by
        have := List.mem_range'_1.1 hx
        omega)
  have h2 : s + n ≤ (List.range' (s + 1) n).foldl max 0 :=
    mem_le_foldl_max _ 0 (s + n) (List.mem_range'_1.2 ⟨by omega, by omega⟩)
  omega

/-- The stored maximum display id of the full store is 999. -/
theorem db999_max : maxDisplayId db999 = some 999 := by
  unfold maxDisplayId
  rw [db999_displays]
  have he : (List.range' 1 999).isEmpty = false := by
    rw [show (999 : Nat) = 998 + 1 from rfl, List.range'_succ]
    rfl
  have hfold := foldl_max_range' 0 999 (by omega)
  simp only [Nat.zero_add] at hfold
  simp [he, hfold]

/-- The stored maximum display id of the freed store is still 999. -/
theorem db499_max : maxDisplayId db499 = some 999 := by
  unfold maxDisplayId
  rw [db499_displays]
  have he : (List.range' 501 499).isEmpty = false := by
    rw [show (499 : Nat) = 498 + 1 from rfl, List.range'_succ]
    rfl
  have hfold := foldl_max_range' 500 499 (by omega)
  simp only [show (500 : Nat) + 499 = 999 from rfl] at hfold
  simp [he, hfold]

/-- Every number 1..999 is assigned in the full store. -/
theorem db999_exists (i : Nat) (h1 : 1 ≤ i) (h2 : i ≤ 999) :
    displayIdExists db999 i = true := by
  unfold displayIdExists
  rw [List.any_eq_true]
  refine ⟨c3Order i, ?_, by simp [c3Order]⟩
  show c3Order i ∈ (List.range' 1 999).map c3Order
  exact List.mem_map.2 ⟨i, List.mem_range'_1.2 ⟨h1, by omega⟩, rfl⟩

/-- The gap scan over the full store finds nothing. -/
theorem db999_gap_none :
    (List.range' 1 999).find? (fun i => !displayIdExists db999 i) = none := by
  rw [List.find?_eq_none]
  intro x hx
  have hb := List.mem_range'_1.1 hx
  simp [db999_exists x (by omega) (by omega)]

/-- The allocator falls back to 1 on the full store. -/
theorem db999_next : getNextDisplayId db999 = 1 := by
  unfold getNextDisplayId
  rw [db999_max]
  simp only [ge_iff_le, le_refl, if_pos, db999_gap_none]

/-- Display number 1 is not assigned in the freed store. -/
theorem db499_not_exists_1 : displayIdExists db499 1 = false := by
  unfold displayIdExists
  rw [List.any_eq_false]
  intro o ho
  have ho' : o ∈ (List.range' 501 499).map c3Order := ho
  obtain ⟨i, hi, rfl⟩ := List.mem_map.1 ho'
  have hb := List.mem_range'_1.1 hi
  simp [c3Order]
  omega

/-- The gap scan over the freed store finds 1 immediately. -/
theorem db499_gap :
    (List.range' 1 999).find? (fun i => !displayIdExists db499 i) = some 1 := by
  rw [show (999 : Nat) = 998 + 1 from rfl, List.range'_succ]
  apply List.find?_cons_of_pos
  simp [db499_not_exists_1]

/-- The allocator returns 1 on the freed store. -/
theorem db499_next : getNextDisplayId db499 = 1 := by
  unfold getNextDisplayId
  rw [db499_max]
  simp only [ge_iff_le, le_refl, if_pos, db499_gap]

/-- No stored order of the full store carries the candidate reference code. -/
theorem db999_ref_any : (db999.orders.any (fun o => decide (o.ref_code = "zz"))) = false := by
  rw [List.any_eq_false]
  intro o ho
  have ho' : o ∈ (List.range' 1 999).map c3Order := ho
  obtain ⟨i, _, rfl⟩ := List.mem_map.1 ho'
  simp [c3Order]

/-- Reference-code allocation succeeds on the full store. -/
theorem db999_ref : ensureUniqueRefCode db999 ["zz"] = some "zz" := by
  unfold ensureUniqueRefCode
  apply List.find?_cons_of_pos
  simp only [db999_ref_any, Bool.not_false]

/-- The fallback display number 1 is still assigned in the full store, so the
header insert hits the unique constraint. -/
theorem db999_dup :
    (db999.orders.any (fun o =>
      decide (o.display_id = getNextDisplayId db999) || decide (o.ref_code = "zz"))) = true := by
  rw [List.any_eq_true]
  refine ⟨c3Order 1, ?_, ?_⟩
  · show c3Order 1 ∈ (List.range' 1 999).map c3Order
    exact List.mem_map.2 ⟨1, List.mem_range'_1.2 ⟨le_refl 1, by omega⟩, rfl⟩
  · rw [db999_next]
    simp [c3Order]

/-- C3 counterexample: in the store where all 999 display numbers are
assigned and the orders holding 1..500 are `complete` (not deleted), the
allocator still sees every number as taken — completion does not free a
display number — falls back to 1, and the creation attempt fails on the
unique constraint: no new order is created at all, rather than one with a
display number in 1..500. -/
theorem completion_does_not_free_display_numbers :
    db999.orders.length = 999 ∧
    (c3Order 1).status = OrderStatus.complete ∧
    (c3Order 500).status = OrderStatus.complete ∧
    (c3Order 501).status = OrderStatus.pending ∧
    getNextDisplayId db999 = 1 ∧
    displayIdExists db999 1 = true ∧
    createOrder db999 42 "Eve" ["zz"] 10 none = (db999, none) := by
  refine ⟨?_, by decide, by decide, by decide, db999_next, db999_exists 1 (by omega) (by omega), ?_⟩
  · show ((List.range' 1 999).map c3Order).length = 999
    rw [List.length_map, List.length_range']
  · unfold createOrder
    have hc : db999.carts.find? (fun c => decide (c.user_id = 42)) = some c3Cart := by rfl
    have he : c3Cart.items.isEmpty = false := by rfl
    simp only [hc, he, db999_ref, db999_dup]
    simp

/-- C3 (amended): the allocator always returns a number in 1..999, never
1000; display numbers are recycled only when order rows are removed from the
store: with the rows holding 1..500 deleted (display numbers 501..999 still
assigned), creating one more order succeeds and assigns display number 1,
inside the freed range 1..500.  Completing orders without deleting their
rows does not free their numbers. -/
theorem display_number_allocation_recycles_freed_rows :
    (∀ db : Db, 1 ≤ getNextDisplayId db ∧ getNextDisplayId db ≤ 999) ∧
    getNextDisplayId db499 = 1 ∧
    (createOrder db499 42 "Eve" ["zz"] 10 none).2.map (fun o => o.display_id) = some 1 := by
  refine ⟨?_, db499_next, ?_⟩
  · intro db
    unfold getNextDisplayId
    split
    · exact ⟨le_refl 1, by omega⟩
    · split
      · split
        · rename_i i hf
          have hb := List.mem_range'_1.1 (List.mem_of_find?_eq_some hf)
          exact ⟨by omega, by omega⟩
        · exact ⟨le_refl 1, by omega⟩
      · rename_i m hm hge
        exact ⟨by omega, by omega⟩
  · unfold createOrder
    have hc : db499.carts.find? (fun c => decide (c.user_id = 42)) = some c3Cart := by rfl
    have he : c3Cart.items.isEmpty = false := by rfl
    have href : ensureUniqueRefCode db499 ["zz"] = some "zz" := by
      unfold ensureUniqueRefCode
      apply List.find?_cons_of_pos
      rw [Bool.not_eq_true']
      rw [List.any_eq_false]
      intro o ho
      have ho' : o ∈ (List.range' 501 499).map c3Order := ho
      obtain ⟨i, _, rfl⟩ := List.mem_map.1 ho'
      simp [c3Order]
    have hdup : (db499.orders.any (fun o =>
        decide (o.display_id = getNextDisplayId db499) || decide (o.ref_code = "zz"))) = false := by
      rw [List.any_eq_false]
      intro o ho
      have ho' : o ∈ (List.range' 501 499).map c3Order := ho
      obtain ⟨i, hi, rfl⟩ := List.mem_map.1 ho'
      have hb := List.mem_range'_1.1 hi
      rw [db499_next]
      simp [c3Order]
      omega
    simp only [hc, he, href, hdup]
    simp [newPendingOrder, db499_next]

/-! ### C6 -/

/-- The delivery loop of `broadcast_to_channel`: delivery targets are exactly
the members that are alive and whose send succeeds; the rest are collected
for removal, in order. -/
theorem broadcast_pass_spec (alive sendOk : Nat → Bool) (conns : List Nat)
    (acc : List Nat × List Nat) :
    conns.foldl (fun (acc : List Nat × List Nat) ws =>
      if !alive ws then (acc.1, acc.2 ++ [ws])
      else if sendOk ws then (acc.1 ++ [ws], acc.2)
      else (acc.1, acc.2 ++ [ws])) acc =
    (acc.1 ++ conns.filter (fun w => alive w && sendOk w),
     acc.2 ++ conns.filter (fun w => !(alive w && sendOk w))) := by
  induction conns generalizing acc with
  | nil => simp
  | cons x xs ih =>
    rw [List.foldl_cons, ih]
    cases ha : alive x <;> cases hs : sendOk x <;>
      simp [ha, hs, List.filter_cons]

/-- `disconnect` filters the connection out of every channel set. -/
theorem disconnect_active (m : ConnectionManager) (ws : Nat) :
    (disconnect m ws).active_connections =
      m.active_connections.map (fun p => (p.1, p.2.filter (fun w => decide (w ≠ ws)))) := rfl

/-- Disconnecting a batch filters every channel set by non-membership in the
batch. -/
theorem disconnectMany_active (rem : List Nat) (m : ConnectionManager) :
    (rem.foldl disconnect m).active_connections =
      m.active_connections.map (fun p => (p.1, p.2.filter (fun w => decide (¬ w ∈ rem)))) := by
  induction rem generalizing m with
  | nil => simp
  | cons x xs ih =>
    rw [List.foldl_cons, ih, disconnect_active, List.map_map]
    have hcomp : ∀ (l : List Nat),
        (l.filter (fun w => decide (w ≠ x))).filter (fun w => decide (¬ w ∈ xs)) =
          l.filter (fun w => decide (¬ w ∈ x :: xs)) := by
      intro l
      rw [List.filter_filter]
      apply List.filter_congr
      intro w _
      by_cases h1 : w = x <;> by_cases h2 : w ∈ xs <;> simp [h1, h2]
    have hfun : ((fun p : String × List Nat => (p.1, p.2.filter (fun w => decide (¬ w ∈ xs)))) ∘
        (fun p : String × List Nat => (p.1, p.2.filter (fun w => decide (w ≠ x))))) =
        fun p : String × List Nat => (p.1, p.2.filter (fun w => decide (¬ w ∈ x :: xs))) := by
      funext p
      show (p.1, (p.2.filter (fun w => decide (w ≠ x))).filter (fun w => decide (¬ w ∈ xs))) = _
      rw [hcomp]
    rw [hfun]

/-- Disconnecting a batch filters the metadata map by non-membership. -/
theorem disconnectMany_info (rem : List Nat) (m : ConnectionManager) :
    (rem.foldl disconnect m).connection_info =
      m.connection_info.filter (fun q => decide (¬ q.1 ∈ rem)) := by
  induction rem generalizing m with
  | nil => simp
  | cons x xs ih =>
    rw [List.foldl_cons, ih]
    show (m.connection_info.filter (fun q => decide (q.1 ≠ x))).filter
        (fun q => decide (¬ q.1 ∈ xs)) = _
    rw [List.filter_filter]
    apply List.filter_congr
    intro q _
    by_cases h1 : q.1 = x <;> by_cases h2 : q.1 ∈ xs <;> simp [h1, h2]

/-- Channel membership after a batch disconnect. -/
theorem getChannelConns_disconnectMany (rem : List Nat) (m : ConnectionManager) (ch : String) :
    getChannelConns (rem.foldl disconnect m) ch =
      (getChannelConns m ch).map (fun l => l.filter (fun w => decide (¬ w ∈ rem))) := by
  unfold getChannelConns
  rw [disconnectMany_active, List.find?_map]
  rw [Option.map_map, Option.map_map]
  have hp : ((fun p : String × List Nat => decide (p.1 = ch)) ∘
      (fun p : String × List Nat => (p.1, p.2.filter (fun w => decide (¬ w ∈ rem))))) =
      fun p : String × List Nat => decide (p.1 = ch) := rfl
  rw [hp]
  have hq : ((fun p : String × List Nat => p.2) ∘
      (fun p : String × List Nat => (p.1, p.2.filter (fun w => decide (¬ w ∈ rem))))) =
      ((fun l : List Nat => l.filter (fun w => decide (¬ w ∈ rem))) ∘
        (fun p : String × List Nat => p.2)) := rfl
  rw [hq]

/-- Closed form of `broadcast_to_channel` on an existing channel: deliver to
the healthy members of the snapshot, then disconnect the rest. -/
theorem broadcastToChannel_spec (m : ConnectionManager) (alive sendOk : Nat → Bool)
    (channel : String) (conns : List Nat)
    (hc : getChannelConns m channel = some conns) :
    broadcastToChannel m alive sendOk channel =
      ((conns.filter (fun w => !(alive w && sendOk w))).foldl disconnect m,
       conns.filter (fun w => alive w && sendOk w)) := by
  unfold broadcastToChannel
  simp only [hc]
  rw [broadcast_pass_spec]
  simp

/-- C6: one member's dead connection or failed send never blocks delivery to
the others — the delivery list of a channel broadcast is exactly the healthy
members of the snapshot; the failed members are removed from every channel
set and from the metadata map only after the delivery loop, and the healthy
members remain registered. -/
theorem broadcast_fault_isolation
    (m : ConnectionManager) (alive sendOk : Nat → Bool) (channel : String) (conns : List Nat)
    (hc : getChannelConns m channel = some conns) :
    (broadcastToChannel m alive sendOk channel).2 =
      conns.filter (fun w => alive w && sendOk w) ∧
    getChannelConns (broadcastToChannel m alive sendOk channel).1 channel =
      some (conns.filter (fun w => alive w && sendOk w)) ∧
    (∀ w ∈ conns, (alive w && sendOk w) = false →
      (∀ p ∈ (broadcastToChannel m alive sendOk channel).1.active_connections, ¬ w ∈ p.2) ∧
      (∀ q ∈ (broadcastToChannel m alive sendOk channel).1.connection_info, q.1 ≠ w)) := by
  have hres := broadcastToChannel_spec m alive sendOk channel conns hc
  refine ⟨by rw [hres], ?_, ?_⟩
  · rw [hres]
    show getChannelConns ((conns.filter (fun w => !(alive w && sendOk w))).foldl disconnect m)
        channel = _
    rw [getChannelConns_disconnectMany, hc]
    show some (conns.filter _) = _
    congr 1
    apply List.filter_congr
    intro w hw
    by_cases hh : (alive w && sendOk w) = true <;>
      simp [List.mem_filter, hw, hh]
  · intro w hw hfail
    have hwR : w ∈ conns.filter (fun w => !(alive w && sendOk w)) :=
      List.mem_filter.2 ⟨hw, by simp [hfail]⟩
    constructor
    · intro p hp
      rw [hres] at hp
      rw [disconnectMany_active] at hp
      obtain ⟨p', _, rfl⟩ := List.mem_map.1 hp
      intro hwp
      have hmem := (List.mem_filter.1 hwp).2
      rw [decide_eq_true_eq] at hmem
      exact hmem hwR
    · intro q hq
      rw [hres] at hq
      rw [disconnectMany_info] at hq
      have hmem := (List.mem_filter.1 hq).2
      rw [decide_eq_true_eq] at hmem
      intro hqe
      rw [hqe] at hmem
      exact hmem hwR

/-- A three-viewer kitchen-display registry for the broadcast witness. -/
def m6 : ConnectionManager :=
  { active_connections :=
      [("kitchen_display", [1, 2, 3]), ("order_updates", []), ("admin_dashboard", [])],
    connection_info :=
      [(1, { channel := "kitchen_display", connected_at := 0, user_info := none, user_id := none }),
       (2, { channel := "kitchen_display", connected_at := 0, user_info := none, user_id := none }),
       (3, { channel := "kitchen_display", connected_at := 0, user_info := none, user_id := none })] }

/-- C6 witness: three registered viewers of which viewer 3 is dead — the
other two receive the broadcast and the dead one is unregistered. -/
theorem broadcast_fault_isolation_witness :
    (getChannelConns m6 "kitchen_display" = some [1, 2, 3]) ∧
    ((broadcastToChannel m6 (fun w => decide (w ≠ 3)) (fun _ => true) "kitchen_display").2 =
      [1, 2, 3].filter (fun w => decide (w ≠ 3) && true) ∧
    getChannelConns (broadcastToChannel m6 (fun w => decide (w ≠ 3)) (fun _ => true)
        "kitchen_display").1 "kitchen_display" =
      some ([1, 2, 3].filter (fun w => decide (w ≠ 3) && true)) ∧
    (∀ w ∈ [1, 2, 3], (decide (w ≠ 3) && true) = false →
      (∀ p ∈ (broadcastToChannel m6 (fun w => decide (w ≠ 3)) (fun _ => true)
          "kitchen_display").1.active_connections, ¬ w ∈ p.2) ∧
      (∀ q ∈ (broadcastToChannel m6 (fun w => decide (w ≠ 3)) (fun _ => true)
          "kitchen_display").1.connection_info, q.1 ≠ w))) :=
  ⟨by decide,
   broadcast_fault_isolation m6 (fun w => decide (w ≠ 3)) (fun _ => true)
     "kitchen_display" [1, 2, 3] (by decide)⟩

/-! ### C7 -/

/-- C7 counterexample: the background task scheduled by the API status route
— the publish path actually triggered by `PUT /orders/{id}/status` —
broadcasts the status-changed event to the kitchen-display and
admin-dashboard channels only: no per-user delivery and no follow-up kitchen
snapshot publish.  The new-order background task likewise omits the
snapshot. -/
theorem api_status_route_broadcast_lacks_snapshot :
    apiStatusChangeTrace =
      [WsAction.chan "kitchen_display" .order_status_change,
       WsAction.chan "admin_dashboard" .order_status_change] ∧
    ¬ WsAction.chan "kitchen_display" .kitchen_update ∈ apiStatusChangeTrace ∧
    apiNewOrderTrace =
      [WsAction.chan "kitchen_display" .new_order,
       WsAction.chan "admin_dashboard" .new_order] := by
  decide

/-- C7 (amended): the `WebSocketService` publish paths behave as claimed —
`broadcast_order_status_change` publishes to kitchen-display,
admin-dashboard and every subscribed per-user connection of the owner, and
its final action is the recomputed kitchen snapshot;
`broadcast_new_order` publishes to kitchen-display and admin-dashboard and
ends with the kitchen snapshot.  The API status route's background task,
however, publishes only to kitchen-display and admin-dashboard, with no
per-user delivery and no snapshot. -/
theorem status_change_publish_targets (m : ConnectionManager) (userId : Nat) :
    WsAction.chan "kitchen_display" .order_status_change ∈ wsStatusChangeTrace m userId ∧
    WsAction.chan "admin_dashboard" .order_status_change ∈ wsStatusChangeTrace m userId ∧
    (∀ ws ∈ userOrderConns m userId,
      WsAction.direct ws .order_status_change ∈ wsStatusChangeTrace m userId) ∧
    (∃ pre, wsStatusChangeTrace m userId =
      pre ++ [WsAction.chan "kitchen_display" .kitchen_update]) ∧
    wsNewOrderTrace =
      [WsAction.chan "kitchen_display" .new_order,
       WsAction.chan "admin_dashboard" .new_order,
       WsAction.chan "kitchen_display" .kitchen_update] ∧
    ¬ WsAction.chan "kitchen_display" .kitchen_update ∈ apiStatusChangeTrace := by
  refine ⟨?_, ?_, ?_, ?_, by decide, by decide⟩
  · simp [wsStatusChangeTrace]
  · simp [wsStatusChangeTrace]
  · intro ws hws
    unfold wsStatusChangeTrace
    refine List.mem_append.2 (Or.inl (List.mem_append.2 (Or.inr ?_)))
    exact List.mem_map.2 ⟨ws, hws, rfl⟩
  · exact ⟨[WsAction.chan "kitchen_display" .order_status_change,
      WsAction.chan "admin_dashboard" .order_status_change] ++
        (userOrderConns m userId).map (fun ws => WsAction.direct ws .order_status_change), rfl⟩

/-- A registry with one `order_updates` connection subscribed to user 9. -/
def m7 : ConnectionManager :=
  { active_connections :=
      [("kitchen_display", []), ("order_updates", [5]), ("admin_dashboard", [])],
    connection_info :=
      [(5, { channel := "order_updates", connected_at := 0, user_info := some 9,
             user_id := some 9 })] }

/-- C7 amended-theorem witness: the subscribed connection 5 of user 9 is a
delivery target of the status-change publish. -/
theorem status_change_publish_targets_witness :
    userOrderConns m7 9 = [5] ∧
    WsAction.direct 5 .order_status_change ∈ wsStatusChangeTrace m7 9 :=
  ⟨by decide, (status_change_publish_targets m7 9).2.2.1 5 (by decide)⟩

/-! ### C10 -/

/-- A connection to the unknown channel name `"bogus"` on a fresh manager. -/
def m10 : ConnectionManager := connect initialManager 7 "bogus" (some 42) 5

/-- C10 counterexample: connecting to an unknown channel records the
metadata entry but joins no channel set, and `get_connection_count` — the
total reported by `get_connection_info` — sums only channel memberships, so
the connection is *not* counted in the total while its metadata entry
exists. -/
theorem unknown_channel_connection_not_counted :
    m10.active_connections = initialManager.active_connections ∧
    m10.connection_info =
      [(7, { channel := "bogus", connected_at := 5, user_info := some 42, user_id := none })] ∧
    getConnectionCount m10 none = 0 ∧
    m10.connection_info.length = 1 := by
  decide

/-- C10 (amended): connecting with a channel name that is not a key of the
registry still succeeds: the metadata entry (channel name, connect time,
user info) is recorded, no channel set changes, the connection is never a
delivery target of any channel broadcast, and the total connection count —
which sums channel memberships — does not include it; disconnecting it
succeeds and removes the metadata entry. -/
theorem unknown_channel_connect_behavior
    (m : ConnectionManager) (ws : Nat) (channel : String) (userInfo : Option Nat) (now : Nat)
    (hch : m.active_connections.find? (fun p => decide (p.1 = channel)) = none)
    (hmem : ∀ p ∈ m.active_connections, ¬ ws ∈ p.2) :
    (connect m ws channel userInfo now).active_connections = m.active_connections ∧
    (connect m ws channel userInfo now).connection_info =
      m.connection_info.filter (fun q => decide (q.1 ≠ ws)) ++
        [(ws, { channel := channel, connected_at := now, user_info := userInfo,
                user_id := none })] ∧
    getConnectionCount (connect m ws channel userInfo now) none = getConnectionCount m none ∧
    (∀ ch alive sendOk,
      ¬ ws ∈ (broadcastToChannel (connect m ws channel userInfo now) alive sendOk ch).2) ∧
    (disconnect (connect m ws channel userInfo now) ws).connection_info =
      m.connection_info.filter (fun q => decide (q.1 ≠ ws)) := by
  have hac : (connect m ws channel userInfo now).active_connections = m.active_connections := by
    unfold connect
    rw [hch]
    rfl
  have hinfo : (connect m ws channel userInfo now).connection_info =
      m.connection_info.filter (fun q => decide (q.1 ≠ ws)) ++
        [(ws, { channel := channel, connected_at := now, user_info := userInfo,
                user_id := none })] := rfl
  refine ⟨hac, hinfo, ?_, ?_, ?_⟩
  · unfold getConnectionCount
    rw [hac]
  · intro ch alive sendOk
    have hgc : getChannelConns (connect m ws channel userInfo now) ch =
        getChannelConns m ch := by
      unfold getChannelConns
      rw [hac]
    cases hf : getChannelConns m ch with
    | none =>
      unfold broadcastToChannel
      rw [hgc, hf]
      simp
    | some conns =>
      rw [broadcastToChannel_spec _ alive sendOk ch conns (hgc.trans hf)]
      intro hin
      have hwc : ws ∈ conns := (List.mem_filter.1 hin).1
      unfold getChannelConns at hf
      obtain ⟨p', hp', hp2⟩ := Option.map_eq_some'.1 hf
      exact hmem p' (List.mem_of_find?_eq_some hp') (hp2 ▸ hwc)
  · rw [disconnect, hinfo]
    rw [List.filter_append, List.filter_filter]
    have h1 : ∀ info : ConnInfo,
        ([(ws, info)].filter (fun q => decide (q.1 ≠ ws))) = ([] : List (Nat × ConnInfo)) := by
      intro info
      simp
    rw [h1, List.append_nil]
    apply List.filter_congr
    intro a _
    simp [Bool.and_self]

/-- C10 amended-theorem witness at the fresh manager with channel name
`"bogus"`. -/
theorem unknown_channel_connect_behavior_witness :
    (initialManager.active_connections.find? (fun p => decide (p.1 = "bogus")) = none) ∧
    (∀ p ∈ initialManager.active_connections, ¬ 7 ∈ p.2) ∧
    ((connect initialManager 7 "bogus" (some 42) 5).active_connections =
      initialManager.active_connections ∧
    (connect initialManager 7 "bogus" (some 42) 5).connection_info =
      initialManager.connection_info.filter (fun q => decide (q.1 ≠ 7)) ++
        [(7, { channel := "bogus", connected_at := 5, user_info := some 42,
               user_id := none })] ∧
    getConnectionCount (connect initialManager 7 "bogus" (some 42) 5) none =
      getConnectionCount initialManager none ∧
    (∀ ch alive sendOk,
      ¬ 7 ∈ (broadcastToChannel (connect initialManager 7 "bogus" (some 42) 5)
        alive sendOk ch).2) ∧
    (disconnect (connect initialManager 7 "bogus" (some 42) 5) 7).connection_info =
      initialManager.connection_info.filter (fun q => decide (q.1 ≠ 7))) :=
  ⟨by decide, by decide,
   unknown_channel_connect_behavior initialManager 7 "bogus" (some 42) 5
     (by decide) (by decide)⟩

end OlgFeast
